import Mathlib

/-!
Verification of the prediction request pipeline of the Chennai waste
prediction service (src/app.py).

The pipeline under study is `predict_segregation` (app.py lines 29-98)
together with the validation and response shaping of the `/predict`
route handler `predict_route` (app.py lines 165-231).

Modelling choices:
* Python floats are modelled as exact rationals (ℚ); the number 0.7 is
  the rational 7/10.
* Python's `int()` on a non-negative float is truncation toward zero,
  modelled by `pyTrunc`.
* Python's `round(x)` and `round(x, 2)` round half to even (banker's
  rounding), modelled by `pyRoundInt` and `pyRound2`.
* The externally loaded artifacts (model, encoder, scaler, schema, the
  zone list read from Data.csv) are an explicit environment `Artifacts`;
  the opaque trained objects are arbitrary functions in the environment.
  The flag `loadOk` is false when some artifact load or invocation
  inside the try-block of `predict_segregation` raises, which the code
  catches at lines 93-98; `encodeThrows` is true when the inner zone
  encoding try-block (lines 53-58) raises.
* A pandas one-row DataFrame is an association list of column name and
  value, in insertion order.
-/

/-- Python `str.strip()`: remove leading and trailing whitespace
    characters (used at app.py lines 50 and 176). -/
def pyStrip (s : String) : String :=
  ⟨((s.data.dropWhile Char.isWhitespace).reverse.dropWhile Char.isWhitespace).reverse⟩

/-- Python `int(q)` for a rational: truncation toward zero
    (app.py line 210, `int(pred_count)`). -/
def pyTrunc (q : ℚ) : ℤ :=
  if 0 ≤ q then ⌊q⌋ else -⌊-q⌋

/-- Python `round(q)`: nearest integer, ties to even. -/
def pyRoundInt (q : ℚ) : ℤ :=
  let f := ⌊q⌋
  if q - f < 1/2 then f
  else if q - f > 1/2 then f + 1
  else if f % 2 = 0 then f else f + 1

/-- Python `round(q, 2)`: nearest multiple of 1/100, ties to even
    (app.py line 205). -/
def pyRound2 (q : ℚ) : ℚ :=
  (pyRoundInt (q * 100) : ℚ) / 100

/-- A parsed JSON request body for POST /predict.  A field is `none` when
    the key is absent from the body; `predict_route` reads each field with
    a default (app.py lines 174-176).  The `ward_number` field may be sent
    by a client but is never read by the route. -/
structure RawRequest where
  total_households : Option ℤ
  covered_households : Option ℤ
  zone_name : Option String
  ward_number : Option ℤ
  deriving Repr, DecidableEq

/-- The `input_data` dictionary handed to `predict_segregation`
    (app.py lines 193-198): keys Total_Households, Covered_Households,
    Zone_Name, and optionally Ward No. (read with default 1 at line 65). -/
structure InputData where
  totalHouseholds : ℚ
  coveredHouseholds : ℚ
  zoneName : String
  wardNo : Option ℤ
  deriving Repr, DecidableEq

/-- The process-wide, read-only artifacts and collaborator functions used
    by the pipeline.  `classes` and `transform` model
    `le_zone.classes_` and `le_zone.transform` of the persisted label
    encoder; `expectedColumns` models `columns.csv`; `scalerTransform`
    and `modelPredict` model `scaler.transform` and `model.predict`;
    `uniqueZones` models `_unique_zones` read from Data.csv at process
    start (app.py lines 17-24).  `loadOk` is false when any artifact
    load or invocation in the try-block of `predict_segregation`
    raises; `encodeThrows` is true when the zone-encoding expression
    itself raises. -/
structure Artifacts where
  loadOk : Bool
  encodeThrows : Bool
  classes : List String
  transform : String → ℤ
  expectedColumns : List String
  scalerTransform : List ℚ → List ℚ
  modelPredict : List ℚ → ℚ
  uniqueZones : List String

/-- Zone encoding with unseen-category and error fallback
    (app.py lines 52-58): the trained code if the name is a member of
    `classes_`, otherwise 0; any internal exception also yields 0. -/
def zoneEncode (env : Artifacts) (zoneName : String) : ℤ :=
  if env.encodeThrows then 0
  else if zoneName ∈ env.classes then env.transform zoneName
  else 0

/-- The `input_features` dictionary (app.py lines 61-66), in insertion
    order, as a one-row DataFrame. -/
def initialFeatures (input : InputData) (zoneId : ℤ) : List (String × ℚ) :=
  [("Total_Households", input.totalHouseholds),
   ("Covered_Households", input.coveredHouseholds),
   ("Zone_ID", (zoneId : ℚ)),
   ("Ward No.", ((input.wardNo.getD 1 : ℤ) : ℚ))]

/-- Column access in a one-row DataFrame: the value stored under the
    first occurrence of the column name, if present. -/
def dfLookup : List (String × ℚ) → String → Option ℚ
  | [], _ => none
  | (k, v) :: rest, c => if c = k then some v else dfLookup rest c

/-- The loop at app.py lines 72-74: for each expected column absent from
    the DataFrame, append it with value 0. -/
def addMissing (df : List (String × ℚ)) : List String → List (String × ℚ)
  | [] => df
  | c :: rest =>
      addMissing (if (dfLookup df c).isSome then df else df ++ [(c, 0)]) rest

/-- Column projection `input_df[expected_columns]` (app.py line 76):
    select the expected columns in the expected order. -/
def selectColumns (df : List (String × ℚ)) (expected : List String) :
    List (String × ℚ) :=
  expected.map fun c => (c, (dfLookup df c).getD 0)

/-- The feature builder (app.py lines 69-76): fill missing expected
    columns with 0, then project to the expected column order. -/
def buildFeatures (df : List (String × ℚ)) (expected : List String) :
    List (String × ℚ) :=
  selectColumns (addMissing df expected) expected

/-- The prediction pipeline `predict_segregation` (app.py lines 29-98).
    When every artifact load and invocation succeeds: trim the zone name
    (line 50), encode it (lines 53-58), build the feature row
    (lines 61-76), scale (line 82), predict (line 85) and clamp the raw
    prediction into [0, covered_households] (line 88).  When anything in
    the try-block raises, the except-branch (lines 93-98) returns the
    fallback estimate 0.7 × Covered_Households. -/
def predictSegregation (env : Artifacts) (input : InputData) : ℚ :=
  if env.loadOk then
    let zoneName := pyStrip input.zoneName
    let zoneId := zoneEncode env zoneName
    let inputDf := buildFeatures (initialFeatures input zoneId) env.expectedColumns
    let inputScaled := env.scalerTransform (inputDf.map Prod.snd)
    let pred := env.modelPredict inputScaled
    max 0 (min pred input.coveredHouseholds)
  else
    input.coveredHouseholds * (7 / 10)

/-- The `input_data` dictionary built by the route handler
    (app.py lines 193-198): the validated totals, the resolved zone
    name, and the literal Ward No. entry 1. -/
def routeInputData (total covered : ℤ) (zoneName : String) : InputData :=
  { totalHouseholds := (total : ℚ)
    coveredHouseholds := (covered : ℚ)
    zoneName := zoneName
    wardNo := some 1 }

/-- The prediction part of a successful response (app.py lines 208-212). -/
structure Prediction where
  segregationRate : ℚ
  predictedHouseholds : ℤ
  modelUsed : String
  deriving Repr, DecidableEq

/-- The echoed input part of a successful response (app.py lines 213-217). -/
structure EchoInput where
  totalHouseholds : ℤ
  coveredHouseholds : ℤ
  zoneName : String
  deriving Repr, DecidableEq

/-- A response of the /predict route: a success body, or an error body
    with an HTTP status code and message. -/
inductive RouteResponse where
  | success (p : Prediction) (inp : EchoInput)
  | failure (status : ℕ) (message : String)
  deriving Repr, DecidableEq

/-- The /predict route handler `predict_route` (app.py lines 165-231).
    A missing or empty body is rejected (lines 169-170); the two field
    reads default to 0 (lines 174-175); the zone name defaults to the
    empty string and is trimmed (line 176); validation rejects a
    non-positive total and an out-of-range covered count
    (lines 178-181); a blank zone name is replaced by the first unique
    zone from Data.csv, or by "Unknown" when that list is empty
    (lines 186-190); then the pipeline runs and the response is shaped
    (lines 200-218). -/
def predict_route (env : Artifacts) (body : Option RawRequest) : RouteResponse :=
  match body with
  | none => .failure 400 "No input data provided"
  | some data =>
    let total : ℤ := data.total_households.getD 0
    let covered : ℤ := data.covered_households.getD 0
    let zoneRaw : String := pyStrip (data.zone_name.getD "")
    if total ≤ 0 then
      .failure 400 "Total households must be greater than 0"
    else if covered < 0 ∨ covered > total then
      .failure 400 "Covered households must be between 0 and total"
    else
      let zoneName :=
        if zoneRaw = "" then
          match env.uniqueZones with
          | [] => "Unknown"
          | z :: _ => z
        else zoneRaw
      let predCount := predictSegregation env (routeInputData total covered zoneName)
      let segregationRate : ℚ :=
        if total > 0 then pyRound2 (predCount / (total : ℚ) * 100) else 0
      .success
        { segregationRate := segregationRate
          predictedHouseholds := pyTrunc predCount
          modelUsed := "XGBoost" }
        { totalHouseholds := total
          coveredHouseholds := covered
          zoneName := zoneName }

/-! Helper lemmas about the feature builder and the pipeline. -/

theorem dfLookup_append (df l : List (String × ℚ)) (c : String) :
    dfLookup (df ++ l) c =
      (match dfLookup df c with
       | some v => some v
       | none => dfLookup l c) := by
  induction df with
  | nil => simp [dfLookup]
  | cons kv rest ih =>
      obtain ⟨k, v⟩ := kv
      by_cases hk : c = k
      · simp [dfLookup, hk]
      · simp [dfLookup, hk, ih]

theorem dfLookup_addMissing_getD (e : List String) (df : List (String × ℚ)) (c : String) :
    (dfLookup (addMissing df e) c).getD 0 = (dfLookup df c).getD 0 := by
  induction e generalizing df with
  | nil => rfl
  | cons c' rest ih =>
      show (dfLookup (addMissing (if (dfLookup df c').isSome then df
        else df ++ [(c', 0)]) rest) c).getD 0 = (dfLookup df c).getD 0
      by_cases hp : (dfLookup df c').isSome
      · rw [if_pos hp, ih]
      · rw [if_neg hp, ih, dfLookup_append]
        cases hdc : dfLookup df c with
        | some v => rfl
        | none => by_cases hcc : c = c' <;> simp [dfLookup, hcc]

theorem buildFeatures_names (df : List (String × ℚ)) (e : List String) :
    (buildFeatures df e).map Prod.fst = e := by
  simp [buildFeatures, selectColumns, List.map_map, Function.comp_def]

theorem buildFeatures_values (df : List (String × ℚ)) (e : List String)
    (c : String) (v : ℚ) (h : (c, v) ∈ buildFeatures df e) :
    v = (dfLookup df c).getD 0 := by
  simp only [buildFeatures, selectColumns, List.mem_map] at h
  obtain ⟨c', _, hc⟩ := h
  obtain ⟨rfl, rfl⟩ := Prod.mk.injEq .. ▸ hc
  exact dfLookup_addMissing_getD e df c'

theorem headD_eq_match (l : List String) (d : String) :
    (match l with
     | [] => d
     | z :: _ => z) = l.headD d := by
  cases l <;> rfl

/-- Inversion of a successful /predict response: validation passed, the
    echoed input is the validated input with the resolved zone name, and
    the prediction fields are computed from the pipeline output. -/
theorem predict_route_success_inv (env : Artifacts) (data : RawRequest)
    (p : Prediction) (inp : EchoInput)
    (h : predict_route env (some data) = .success p inp) :
    0 < data.total_households.getD 0 ∧
    0 ≤ data.covered_households.getD 0 ∧
    data.covered_households.getD 0 ≤ data.total_households.getD 0 ∧
    inp.totalHouseholds = data.total_households.getD 0 ∧
    inp.coveredHouseholds = data.covered_households.getD 0 ∧
    inp.zoneName = (if pyStrip (data.zone_name.getD "") = ""
                    then env.uniqueZones.headD "Unknown"
                    else pyStrip (data.zone_name.getD "")) ∧
    p = { segregationRate := pyRound2 (predictSegregation env
            (routeInputData inp.totalHouseholds inp.coveredHouseholds inp.zoneName) /
            (inp.totalHouseholds : ℚ) * 100)
          predictedHouseholds := pyTrunc (predictSegregation env
            (routeInputData inp.totalHouseholds inp.coveredHouseholds inp.zoneName))
          modelUsed := "XGBoost" } := by
  simp only [predict_route] at h
  split at h
  · exact absurd h (by simp)
  next h1 =>
    split at h
    · exact absurd h (by simp)
    next h2 =>
      push_neg at h1 h2
      rw [if_pos (by omega : data.total_households.getD 0 > 0)] at h
      rw [RouteResponse.success.injEq] at h
      obtain ⟨hp, hinp⟩ := h
      subst hp; subst hinp
      refine ⟨by omega, h2.1, h2.2, rfl, rfl, ?_, ?_⟩
      · by_cases hz : pyStrip (data.zone_name.getD "") = "" <;>
          simp [hz, headD_eq_match]
      · by_cases hz : pyStrip (data.zone_name.getD "") = "" <;> simp [hz]

/-- Both branches of the pipeline return a value in
    [0, Covered_Households] whenever the covered count is non-negative:
    the model branch is clamped at line 88, and the fallback multiplies
    by 7/10 ≤ 1. -/
theorem predictSegregation_mem_range (env : Artifacts) (input : InputData)
    (hc : 0 ≤ input.coveredHouseholds) :
    0 ≤ predictSegregation env input ∧
      predictSegregation env input ≤ input.coveredHouseholds := by
  unfold predictSegregation
  split
  · exact ⟨le_max_left 0 _, max_le hc (min_le_right _ _)⟩
  · constructor
    · positivity
    · nlinarith

theorem pyTrunc_range (q : ℚ) (c : ℤ) (h0 : 0 ≤ q) (hc : q ≤ (c : ℚ)) :
    0 ≤ pyTrunc q ∧ pyTrunc q ≤ c := by
  unfold pyTrunc
  rw [if_pos h0]
  refine ⟨Int.floor_nonneg.mpr h0, ?_⟩
  calc ⌊q⌋ ≤ ⌊(c : ℚ)⌋ := Int.floor_le_floor hc
    _ = c := Int.floor_intCast c

/-! Concrete environments and requests used to instantiate the theorems. -/

/-- The four feature columns of the shipped columns.csv artifact. -/
def testColumns : List String :=
  ["Total_Households", "Covered_Households", "Zone_ID", "Ward No."]

/-- An environment in which some artifact load or invocation raises, so
    the pipeline takes its fallback branch. -/
def fallbackEnv : Artifacts :=
  { loadOk := false
    encodeThrows := false
    classes := ["North"]
    transform := fun _ => 0
    expectedColumns := testColumns
    scalerTransform := id
    modelPredict := fun _ => 2
    uniqueZones := ["North"] }

/-- An environment in which every artifact works; the regressor is the
    constant 2. -/
def modelEnv : Artifacts := { fallbackEnv with loadOk := true }

/-- An otherwise working environment whose zone-encoding step raises
    internally. -/
def throwEnv : Artifacts := { fallbackEnv with loadOk := true, encodeThrows := true }

/-- A working environment whose schema is the single column Ward No. and
    whose regressor returns that feature, exposing the ward value the
    model actually receives. -/
def wardProbeEnv : Artifacts :=
  { fallbackEnv with
    loadOk := true
    expectedColumns := ["Ward No."]
    modelPredict := fun v => v.headI }

/-! Claim theorems. -/

/-- Claim C1, counterexample.  The claim states that for every success
    response, segregation_rate = round(predicted_households /
    total_households * 100, 2) with predicted_households the returned
    integer.  The code computes the rate from the un-truncated float
    prediction (app.py line 205) before truncating it (line 210): with a
    failing artifact load, total 10 and covered 5, the fallback
    prediction is 3.5, the response carries rate 35 and
    predicted_households 3, yet round(3 / 10 * 100, 2) = 30 ≠ 35. -/
theorem rate_not_from_truncated_cex :
    predict_route fallbackEnv (some ⟨some 10, some 5, some "A", none⟩) =
      .success ⟨35, 3, "XGBoost"⟩ ⟨10, 5, "A"⟩ ∧
    pyRound2 ((3 : ℚ) / 10 * 100) = 30 ∧ (35 : ℚ) ≠ 30 := by
  refine ⟨?_, ?_, by norm_num⟩
  · simp only [predict_route, predictSegregation, routeInputData, fallbackEnv, pyStrip,
      pyRound2, pyRoundInt, pyTrunc]
    norm_num
    decide
  · rw [pyRound2, pyRoundInt]
    norm_num

/-- Claim C1, amended.  For every success response, segregation_rate
    equals round(pred_count / total_households * 100, 2) where pred_count
    is the un-truncated pipeline output, and predicted_households is the
    truncation int(pred_count); the claimed identity holds only when
    pred_count is an integer. -/
theorem rate_from_untruncated_prediction (env : Artifacts) (data : RawRequest)
    (p : Prediction) (inp : EchoInput)
    (h : predict_route env (some data) = .success p inp) :
    p.segregationRate = pyRound2 (predictSegregation env
        (routeInputData inp.totalHouseholds inp.coveredHouseholds inp.zoneName) /
        (inp.totalHouseholds : ℚ) * 100) ∧
    p.predictedHouseholds = pyTrunc (predictSegregation env
        (routeInputData inp.totalHouseholds inp.coveredHouseholds inp.zoneName)) := by
  obtain ⟨-, -, -, -, -, -, hp⟩ := predict_route_success_inv env data p inp h
  exact ⟨by rw [hp], by rw [hp]⟩

theorem rate_from_untruncated_prediction_witness :
    predict_route fallbackEnv (some ⟨some 10, some 5, some "A", none⟩) =
      .success ⟨35, 3, "XGBoost"⟩ ⟨10, 5, "A"⟩ ∧
    (35 : ℚ) = pyRound2 (predictSegregation fallbackEnv (routeInputData 10 5 "A") /
        ((10 : ℤ) : ℚ) * 100) ∧
    (3 : ℤ) = pyTrunc (predictSegregation fallbackEnv (routeInputData 10 5 "A")) := by
  have h : predict_route fallbackEnv (some ⟨some 10, some 5, some "A", none⟩) =
      .success ⟨35, 3, "XGBoost"⟩ ⟨10, 5, "A"⟩ := by
    simp only [predict_route, predictSegregation, routeInputData, fallbackEnv, pyStrip,
      pyRound2, pyRoundInt, pyTrunc]
    norm_num
    decide
  obtain ⟨h1, h2⟩ := rate_from_untruncated_prediction fallbackEnv _ _ _ h
  exact ⟨h, h1, h2⟩

/-- Claim C2, counterexample.  The claim states that on artifact failure
    predicted_households equals round(0.7 * covered_households).  The
    code truncates instead (app.py line 210): with covered 7 the
    fallback is 4.9, the response carries 4, while round(4.9) = 5. -/
theorem fallback_rounds_cex :
    predict_route fallbackEnv (some ⟨some 10, some 7, some "A", none⟩) =
      .success ⟨49, 4, "XGBoost"⟩ ⟨10, 7, "A"⟩ ∧
    pyRoundInt ((7 : ℚ) / 10 * 7) = 5 ∧ (4 : ℤ) ≠ 5 := by
  refine ⟨?_, ?_, by norm_num⟩
  · simp only [predict_route, predictSegregation, routeInputData, fallbackEnv, pyStrip,
      pyRound2, pyRoundInt, pyTrunc]
    norm_num
    decide
  · rw [pyRoundInt]
    norm_num

/-- Claim C2, amended.  For every valid request, when some artifact load
    or invocation fails the response is still success-shaped and
    predicted_households equals int(0.7 * covered_households), the
    truncation of the fallback estimate. -/
theorem fallback_truncated_estimate (env : Artifacts) (data : RawRequest)
    (hfail : env.loadOk = false)
    (h1 : 0 < data.total_households.getD 0)
    (h2 : 0 ≤ data.covered_households.getD 0)
    (h3 : data.covered_households.getD 0 ≤ data.total_households.getD 0) :
    ∃ p inp, predict_route env (some data) = .success p inp ∧
      p.predictedHouseholds =
        pyTrunc ((data.covered_households.getD 0 : ℚ) * (7 / 10)) := by
  simp only [predict_route]
  rw [if_neg (by omega), if_neg (by omega)]
  refine ⟨_, _, rfl, ?_⟩
  simp [predictSegregation, hfail, routeInputData]

theorem fallback_truncated_estimate_witness :
    fallbackEnv.loadOk = false ∧
    ∃ p inp, predict_route fallbackEnv (some ⟨some 10, some 7, some "A", none⟩) =
        .success p inp ∧
      p.predictedHouseholds = pyTrunc ((7 : ℚ) * (7 / 10)) :=
  ⟨rfl, fallback_truncated_estimate fallbackEnv ⟨some 10, some 7, some "A", none⟩
    rfl (by norm_num) (by norm_num) (by norm_num)⟩

/-- Claim C3.  Every success response, via the model path or the
    fallback path, satisfies 0 ≤ predicted_households ≤
    covered_households: the model output is clamped at app.py line 88
    and the fallback multiplies the covered count by 7/10. -/
theorem predicted_households_within_bounds (env : Artifacts) (data : RawRequest)
    (p : Prediction) (inp : EchoInput)
    (h : predict_route env (some data) = .success p inp) :
    0 ≤ p.predictedHouseholds ∧ p.predictedHouseholds ≤ inp.coveredHouseholds := by
  obtain ⟨h1, h2, h3, ht, hc, hz, hp⟩ := predict_route_success_inv env data p inp h
  have hcin : (0 : ℚ) ≤
      (routeInputData inp.totalHouseholds inp.coveredHouseholds inp.zoneName).coveredHouseholds := by
    simp only [routeInputData, hc]
    exact_mod_cast h2
  obtain ⟨b1, b2⟩ := predictSegregation_mem_range env
    (routeInputData inp.totalHouseholds inp.coveredHouseholds inp.zoneName) hcin
  have b2' : predictSegregation env
      (routeInputData inp.totalHouseholds inp.coveredHouseholds inp.zoneName) ≤
      (inp.coveredHouseholds : ℚ) := b2
  rw [hp]
  exact pyTrunc_range _ inp.coveredHouseholds b1 b2'

theorem predicted_households_within_bounds_witness :
    predict_route modelEnv (some ⟨some 10, some 5, some "North", none⟩) =
      .success ⟨20, 2, "XGBoost"⟩ ⟨10, 5, "North"⟩ ∧
    0 ≤ (2 : ℤ) ∧ (2 : ℤ) ≤ 5 := by
  have h : predict_route modelEnv (some ⟨some 10, some 5, some "North", none⟩) =
      .success ⟨20, 2, "XGBoost"⟩ ⟨10, 5, "North"⟩ := by
    simp only [predict_route, predictSegregation, routeInputData, modelEnv, fallbackEnv,
      pyStrip, pyRound2, pyRoundInt, pyTrunc, zoneEncode, buildFeatures, selectColumns,
      addMissing, dfLookup, initialFeatures, testColumns]
    norm_num
    decide
  exact ⟨h, predicted_households_within_bounds modelEnv _ _ _ h⟩

/-- Claim C4.  Any request with a non-positive total, a negative covered
    count, or covered exceeding total is rejected by the validation at
    app.py lines 178-181 with a 400 error; the pipeline and the fallback
    estimate are never reached. -/
theorem invalid_request_rejected (env : Artifacts) (data : RawRequest)
    (h : data.total_households.getD 0 ≤ 0 ∨
         data.covered_households.getD 0 < 0 ∨
         data.covered_households.getD 0 > data.total_households.getD 0) :
    predict_route env (some data) =
        .failure 400 "Total households must be greater than 0" ∨
    predict_route env (some data) =
        .failure 400 "Covered households must be between 0 and total" := by
  simp only [predict_route]
  by_cases h1 : data.total_households.getD 0 ≤ 0
  · left
    rw [if_pos h1]
  · right
    rw [if_neg h1, if_pos (by omega)]

theorem invalid_request_rejected_witness :
    ((7 : ℤ) ≤ 0 ∨ (9 : ℤ) < 0 ∨ (9 : ℤ) > 7) ∧
    (predict_route modelEnv (some ⟨some 7, some 9, some "North", none⟩) =
        .failure 400 "Total households must be greater than 0" ∨
     predict_route modelEnv (some ⟨some 7, some 9, some "North", none⟩) =
        .failure 400 "Covered households must be between 0 and total") :=
  ⟨by norm_num,
   invalid_request_rejected modelEnv ⟨some 7, some 9, some "North", none⟩ (by norm_num)⟩

/-- Claim C5.  A zone name whose stripped form is not among the encoder
    classes is encoded as 0 (app.py line 54), the pipeline result equals
    the result for any zone that encodes to the reference code 0, and an
    internal encoding exception also degrades to code 0 (lines 56-58);
    zone encoding never fails the request. -/
theorem unknown_zone_reference_category (env : Artifacts) (input : InputData)
    (zone₀ : String)
    (hz : pyStrip input.zoneName ∉ env.classes)
    (h0 : zoneEncode env (pyStrip zone₀) = 0) :
    zoneEncode env (pyStrip input.zoneName) = 0 ∧
    predictSegregation env input =
      predictSegregation env { input with zoneName := zone₀ } ∧
    ∀ name, env.encodeThrows = true → zoneEncode env name = 0 := by
  have e1 : zoneEncode env (pyStrip input.zoneName) = 0 := by
    simp [zoneEncode, hz]
  refine ⟨e1, ?_, fun name ht => by simp [zoneEncode, ht]⟩
  by_cases hl : env.loadOk <;>
    simp [predictSegregation, hl, e1, h0, initialFeatures]

theorem unknown_zone_reference_category_witness :
    pyStrip "Nowhere" ∉ throwEnv.classes ∧
    zoneEncode throwEnv (pyStrip "North") = 0 ∧
    zoneEncode throwEnv (pyStrip "Nowhere") = 0 ∧
    predictSegregation throwEnv ⟨10, 5, "Nowhere", some 1⟩ =
      predictSegregation throwEnv ⟨10, 5, "North", some 1⟩ ∧
    zoneEncode throwEnv "Adyar" = 0 := by
  have hz : pyStrip "Nowhere" ∉ throwEnv.classes := by decide
  have h0 : zoneEncode throwEnv (pyStrip "North") = 0 := by decide
  obtain ⟨c1, c2, c3⟩ :=
    unknown_zone_reference_category throwEnv ⟨10, 5, "Nowhere", some 1⟩ "North" hz h0
  exact ⟨hz, h0, c1, c2, c3 "Adyar" rfl⟩

/-- Claim C6, counterexample.  The claim states that the Ward No.
    feature equals the request's ward_number when supplied.  The route
    handler never reads ward_number: it always passes the literal 1
    (app.py line 197).  A request carrying ward_number 2 produces the
    feature value 1, and with a schema of just Ward No. and a regressor
    returning that feature, the response predicts 1, not 2. -/
theorem ward_number_request_field_ignored_cex :
    (RawRequest.mk (some 10) (some 5) (some "A") (some 2)).ward_number.getD 1 = 2 ∧
    predict_route wardProbeEnv (some ⟨some 10, some 5, some "A", some 2⟩) =
      .success ⟨10, 1, "XGBoost"⟩ ⟨10, 5, "A"⟩ ∧
    buildFeatures (initialFeatures (routeInputData 10 5 "A") 0) ["Ward No."] =
      [("Ward No.", 1)] ∧
    (1 : ℚ) ≠ 2 := by
  have e1 : (("Ward No." : String) = "Total_Households") = False := by decide
  have e2 : (("Ward No." : String) = "Covered_Households") = False := by decide
  have e3 : (("Ward No." : String) = "Zone_ID") = False := by decide
  have e4 : (("A" : String) = "") = False := by decide
  refine ⟨rfl, ?_, ?_, by norm_num⟩
  · have hA : pyStrip "A" = "A" := by decide
    norm_num [predict_route, predictSegregation, routeInputData, wardProbeEnv,
      fallbackEnv, pyRound2, pyRoundInt, pyTrunc, zoneEncode, buildFeatures,
      selectColumns, addMissing, dfLookup, initialFeatures, hA, e1, e2, e3, e4]
  · norm_num [buildFeatures, selectColumns, addMissing, dfLookup, initialFeatures,
      routeInputData, e1, e2, e3]

/-- Claim C6, amended.  The Ward No. feature the route hands to the
    pipeline is always 1, whatever ward_number the request carries: the
    route builds input_data with the literal 1 (app.py line 197), so
    every Ward No. entry of the feature vector equals 1. -/
theorem ward_feature_always_one (t c : ℤ) (z : String) (zid : ℤ)
    (cols : List String) (v : ℚ)
    (h : ("Ward No.", v) ∈
      buildFeatures (initialFeatures (routeInputData t c z) zid) cols) :
    v = 1 := by
  have hv := buildFeatures_values _ cols _ _ h
  simpa [initialFeatures, routeInputData, dfLookup] using hv

theorem ward_feature_always_one_witness :
    ("Ward No.", (1 : ℚ)) ∈
      buildFeatures (initialFeatures (routeInputData 10 5 "A") 0) ["Ward No."] ∧
    (1 : ℚ) = 1 := by
  have hm : ("Ward No.", (1 : ℚ)) ∈
      buildFeatures (initialFeatures (routeInputData 10 5 "A") 0) ["Ward No."] := by
    simp [buildFeatures, selectColumns, addMissing, dfLookup, initialFeatures,
      routeInputData]
  exact ⟨hm, ward_feature_always_one 10 5 "A" 0 ["Ward No."] 1 hm⟩

/-- Claim C7.  The feature vector handed to the scaler has exactly the
    names and order of the schema artifact: each schema column missing
    from the initial mapping is filled with 0, and keys outside the
    schema are dropped (app.py lines 69-76). -/
theorem features_match_schema (env : Artifacts) (input : InputData) :
    (buildFeatures (initialFeatures input (zoneEncode env (pyStrip input.zoneName)))
        env.expectedColumns).map Prod.fst = env.expectedColumns ∧
    ∀ c v, (c, v) ∈ buildFeatures
        (initialFeatures input (zoneEncode env (pyStrip input.zoneName)))
        env.expectedColumns →
      v = (dfLookup (initialFeatures input (zoneEncode env (pyStrip input.zoneName)))
            c).getD 0 :=
  ⟨buildFeatures_names _ _, fun c v h => buildFeatures_values _ _ c v h⟩

theorem features_match_schema_witness :
    (buildFeatures (initialFeatures ⟨10, 5, "North", some 1⟩
        (zoneEncode modelEnv (pyStrip "North"))) modelEnv.expectedColumns).map Prod.fst =
      modelEnv.expectedColumns ∧
    (10 : ℚ) = (dfLookup (initialFeatures ⟨10, 5, "North", some 1⟩
        (zoneEncode modelEnv (pyStrip "North"))) "Total_Households").getD 0 := by
  have hm : (("Total_Households", (10 : ℚ))) ∈ buildFeatures
      (initialFeatures ⟨10, 5, "North", some 1⟩ (zoneEncode modelEnv (pyStrip "North")))
      modelEnv.expectedColumns := by
    simp [buildFeatures, selectColumns, addMissing, dfLookup, initialFeatures,
      modelEnv, fallbackEnv, testColumns, zoneEncode, pyStrip]
  exact ⟨(features_match_schema modelEnv ⟨10, 5, "North", some 1⟩).1,
    (features_match_schema modelEnv ⟨10, 5, "North", some 1⟩).2 "Total_Households" 10 hm⟩

/-- Claim C8.  When the request's zone name is omitted or blank after
    stripping, the route substitutes the first entry of the zone list
    loaded from Data.csv, or the literal "Unknown" when that list is
    empty (app.py lines 186-190); the substitution happens after
    validation and the request still succeeds. -/
theorem blank_zone_substituted (env : Artifacts) (data : RawRequest)
    (h1 : 0 < data.total_households.getD 0)
    (h2 : 0 ≤ data.covered_households.getD 0)
    (h3 : data.covered_households.getD 0 ≤ data.total_households.getD 0)
    (hblank : pyStrip (data.zone_name.getD "") = "") :
    ∃ p, predict_route env (some data) =
      .success p ⟨data.total_households.getD 0, data.covered_households.getD 0,
                  env.uniqueZones.headD "Unknown"⟩ := by
  simp only [predict_route]
  rw [if_neg (by omega), if_neg (by omega), if_pos hblank, headD_eq_match]
  exact ⟨_, rfl⟩

theorem blank_zone_substituted_witness :
    pyStrip ((some "  " : Option String).getD "") = "" ∧
    ∃ p, predict_route modelEnv (some ⟨some 10, some 5, some "  ", none⟩) =
      .success p ⟨10, 5, modelEnv.uniqueZones.headD "Unknown"⟩ :=
  ⟨by decide,
   blank_zone_substituted modelEnv ⟨some 10, some 5, some "  ", none⟩
     (by norm_num) (by norm_num) (by norm_num) (by decide)⟩

/-- Claim C9.  The rate division at app.py line 205 never divides by
    zero: every success response has a positive total (guaranteed by the
    validation at line 178), and the rate always comes from the guarded
    division branch, so the `else 0.0` branch is unreachable. -/
theorem rate_division_guarded (env : Artifacts) (body : Option RawRequest)
    (p : Prediction) (inp : EchoInput)
    (h : predict_route env body = .success p inp) :
    0 < inp.totalHouseholds ∧
    p.segregationRate = pyRound2 (predictSegregation env
        (routeInputData inp.totalHouseholds inp.coveredHouseholds inp.zoneName) /
        (inp.totalHouseholds : ℚ) * 100) := by
  match body with
  | none => exact absurd h (by simp [predict_route])
  | some data =>
      obtain ⟨h1, -, -, ht, -, -, hp⟩ := predict_route_success_inv env data p inp h
      exact ⟨ht ▸ h1, by rw [hp]⟩

theorem rate_division_guarded_witness :
    predict_route modelEnv (some ⟨some 4, some 4, some "North", none⟩) =
      .success ⟨50, 2, "XGBoost"⟩ ⟨4, 4, "North"⟩ ∧
    0 < (4 : ℤ) ∧
    (50 : ℚ) = pyRound2 (predictSegregation modelEnv (routeInputData 4 4 "North") /
        ((4 : ℤ) : ℚ) * 100) := by
  have h : predict_route modelEnv (some ⟨some 4, some 4, some "North", none⟩) =
      .success ⟨50, 2, "XGBoost"⟩ ⟨4, 4, "North"⟩ := by
    simp only [predict_route, predictSegregation, routeInputData, modelEnv, fallbackEnv,
      pyStrip, pyRound2, pyRoundInt, pyTrunc, zoneEncode, buildFeatures, selectColumns,
      addMissing, dfLookup, initialFeatures, testColumns]
    norm_num
    decide
  obtain ⟨g1, g2⟩ := rate_division_guarded modelEnv _ _ _ h
  exact ⟨h, g1, g2⟩

/-- Claim C10.  A body that omits total_households is read as total 0
    (app.py line 174) and rejected with the non-positive-total message;
    a body with a positive total but no covered_households proceeds with
    covered 0; only a wholly missing body gets the distinct
    "No input data provided" rejection (lines 169-170). -/
theorem missing_fields_default_to_zero (env : Artifacts) (data : RawRequest) :
    (data.total_households = none →
      predict_route env (some data) =
        .failure 400 "Total households must be greater than 0") ∧
    (∀ t : ℤ, data.total_households = some t → 0 < t →
      data.covered_households = none →
      ∃ p z, predict_route env (some data) = .success p ⟨t, 0, z⟩) ∧
    predict_route env none = .failure 400 "No input data provided" := by
  refine ⟨?_, ?_, rfl⟩
  · intro hnone
    simp only [predict_route, hnone, Option.getD_none]
    rw [if_pos le_rfl]
  · intro t ht h0 hcov
    simp only [predict_route, ht, hcov, Option.getD_none, Option.getD_some]
    rw [if_neg (by omega), if_neg (by omega)]
    exact ⟨_, _, rfl⟩

theorem missing_fields_default_to_zero_witness :
    predict_route modelEnv (some ⟨none, some 3, none, none⟩) =
      .failure 400 "Total households must be greater than 0" ∧
    (∃ p z, predict_route modelEnv (some ⟨some 10, none, none, none⟩) =
      .success p ⟨10, 0, z⟩) ∧
    predict_route modelEnv none = .failure 400 "No input data provided" :=
  ⟨(missing_fields_default_to_zero modelEnv ⟨none, some 3, none, none⟩).1 rfl,
   (missing_fields_default_to_zero modelEnv ⟨some 10, none, none, none⟩).2.1 10 rfl
     (by norm_num) rfl,
   (missing_fields_default_to_zero modelEnv ⟨none, some 3, none, none⟩).2.2⟩
